import Mathlib

/-!
Verification development for the omi-mentor-app core: a shallow embedding of
the text-analyzer utilities (`src/utils/mentorUtils.js`), the mentor profile
store (`MentorService` in the README), and the notification scheduler
(`NotificationService` in the README), together with theorems settling the
specification claims about them.

Strings are modelled as Lean `String`s, processed as `List Char`; JavaScript
`null`/`undefined` arguments are modelled with `Option`; timestamps are
millisecond counts (`Int`); JavaScript numbers used by the sentiment score
are modelled as exact rationals.
-/

/-- JS word character class `\w` = `[A-Za-z0-9_]`. -/
def wordChar (c : Char) : Bool :=
  c.isAlpha || c.isDigit || c = '_'

/-- ASCII lower-casing of one character, as `String.toLowerCase` does per char. -/
def lcase (c : Char) : Char := c.toLower

/-- JS `String.trim`: drop whitespace from both ends. -/
def trimChars (l : List Char) : List Char :=
  ((l.dropWhile Char.isWhitespace).reverse.dropWhile Char.isWhitespace).reverse

/-- Recursion core of `splitRuns`, structural in `fuel` so that the kernel
can evaluate it; each step strictly shortens the list, so `fuel = l.length`
is never exhausted. -/
def splitRunsAux (sep : Char → Bool) : Nat → List Char → List (List Char)
  | fuel, l =>
    let field := l.takeWhile (fun c => !(sep c))
    let rest := l.dropWhile (fun c => !(sep c))
    match fuel, rest with
    | _, [] => [field]
    | 0, _ => [field]
    | fuel + 1, _ :: _ => field :: splitRunsAux sep fuel (rest.dropWhile sep)

/-- JS `String.split(re)` where `re` matches maximal nonempty runs of
characters satisfying `sep`: the fields between separator runs, keeping
empty fields at either end (so `"a.".split(/[.]+/) = ["a", ""]`). -/
def splitRuns (sep : Char → Bool) (l : List Char) : List (List Char) :=
  splitRunsAux sep l.length l

/-- `Math.max(0, Math.min(1, x))`: clamp a rational into `[0, 1]`. -/
def ratClamp01 (x : ℚ) : ℚ :=
  if x < 0 then 0 else if 1 < x then 1 else x

/-- JS `hay.includes(needle)` on character lists (substring containment). -/
def hasSubstr (hay needle : List Char) : Bool :=
  match hay with
  | [] => needle.isEmpty
  | _ :: t => needle.isPrefixOf hay || hasSubstr t needle

namespace MentorUtils

/-! ### `src/utils/mentorUtils.js` -/

/-- The fixed action-indicating phrases of `extractActionItems`. -/
def actionPhrases : List (List Char) :=
  (["need to", "have to", "should", "will", "going to",
    "must", "plan to", "want to", "intend to"]).map String.toList

/-- The fixed set of leading filler words, in the alternation order of the
regex `/^(um|uh|so|like|well|i mean|you know|basically)/i`. -/
def fillerWords : List (List Char) :=
  (["um", "uh", "so", "like", "well", "i mean", "you know", "basically"]).map String.toList

/-- `actionItem.replace(/^(um|uh|so|like|well|i mean|you know|basically)/i, '')`:
the first alternative (in order) matching case-insensitively at the start is
removed; otherwise the string is unchanged. -/
def stripFiller (l : List Char) : List Char :=
  match fillerWords.find? (fun f => f.isPrefixOf (l.map lcase)) with
  | some f => l.drop f.length
  | none => l

/-- The body of the per-sentence loop of `extractActionItems`: if some action
phrase occurs (case-insensitively) in the sentence, clean it up and append it
when it is long enough and not already present. -/
def processSentence (acc : List (List Char)) (sentence : List Char) : List (List Char) :=
  if actionPhrases.any (fun p => hasSubstr (sentence.map lcase) p) then
    let actionItem := trimChars sentence
    let actionItem := trimChars (stripFiller actionItem)
    if actionItem.length > 10 && !(acc.contains actionItem) then
      acc ++ [actionItem]
    else acc
  else acc

/-- `extractActionItems(text)` from `mentorUtils.js`: split on `[.!?]+`,
keep sentences with nonempty trim, scan each for an action phrase, strip
leading filler, keep cleaned items longer than 10 chars, no duplicates.
`none` models a `null`/`undefined` argument (the `if (!text)` guard, which
also catches the empty string). -/
def extractActionItems (text : Option String) : List String :=
  match text with
  | none => []
  | some t =>
    if t.isEmpty then [] else
    let sentences :=
      (splitRuns (fun c => c = '.' || c = '!' || c = '?') t.toList).filter
        (fun s => (trimChars s).length > 0)
    (sentences.foldl processSentence []).map (fun l => String.mk l)

/-- The fixed positive keyword list of `analyzeSentiment`. -/
def positiveWords : List (List Char) :=
  (["good", "great", "excellent", "amazing", "wonderful", "fantastic",
    "happy", "excited", "pleased", "love", "enjoy", "positive", "success",
    "achievement", "accomplished", "proud", "delighted", "perfect"]).map String.toList

/-- The fixed negative keyword list of `analyzeSentiment`. -/
def negativeWords : List (List Char) :=
  (["bad", "terrible", "awful", "horrible", "poor", "disappointing",
    "sad", "angry", "upset", "hate", "dislike", "negative", "failure",
    "problem", "issue", "trouble", "difficult", "frustrated", "annoyed"]).map String.toList

/-- A sentiment analysis result `{score, label}`; the score is an exact
rational standing for the JS number. -/
structure Sentiment where
  score : ℚ
  label : String
  deriving DecidableEq, Repr

/-- `text.toLowerCase().split(/\W+/)`: the token list of `analyzeSentiment`,
including empty fields produced at non-word boundaries at either end. -/
def sentimentWords (t : String) : List (List Char) :=
  splitRuns (fun c => !(wordChar c)) (t.toList.map lcase)

/-- `analyzeSentiment(text)` from `mentorUtils.js`. `none` models a
`null`/`undefined` argument; the empty string also takes the `if (!text)`
branch. -/
def analyzeSentiment (text : Option String) : Sentiment :=
  match text with
  | none => ⟨1/2, "neutral"⟩
  | some t =>
    if t.isEmpty then ⟨1/2, "neutral"⟩ else
    let words := sentimentWords t
    let positiveCount := (words.filter (fun w => positiveWords.contains w)).length
    let negativeCount := (words.filter (fun w => negativeWords.contains w)).length
    let totalWords := words.length
    let positiveScore : ℚ := if totalWords > 0 then (positiveCount : ℚ) / totalWords else 0
    let negativeScore : ℚ := if totalWords > 0 then (negativeCount : ℚ) / totalWords else 0
    let score : ℚ :=
      if positiveCount > 0 || negativeCount > 0 then
        ratClamp01 (1/2 + (positiveScore - negativeScore) * (5/2))
      else 1/2
    let label :=
      if score ≥ 3/4 then "very positive"
      else if score ≥ 3/5 then "positive"
      else if score ≥ 2/5 then "neutral"
      else if score ≥ 1/4 then "negative"
      else "very negative"
    ⟨score, label⟩

/-- The fixed topic keyword table of `identifyTopics`, in declaration order. -/
def topicKeywords : List (String × List String) :=
  [("work", ["job", "work", "project", "task", "deadline", "meeting", "client", "boss", "colleague"]),
   ("health", ["health", "exercise", "workout", "gym", "run", "sleep", "diet", "food", "stress", "tired"]),
   ("productivity", ["productive", "efficiency", "focus", "distraction", "procrastination", "time management", "priority"]),
   ("learning", ["learn", "study", "course", "book", "read", "knowledge", "skill", "training"]),
   ("social", ["friend", "family", "relationship", "social", "party", "meet", "talk", "conversation"]),
   ("finance", ["money", "finance", "budget", "expense", "cost", "save", "invest", "purchase", "buy"]),
   ("technology", ["tech", "computer", "software", "app", "device", "phone", "digital", "online", "internet"]),
   ("travel", ["travel", "trip", "vacation", "visit", "flight", "hotel", "destination", "journey"]),
   ("creativity", ["creative", "design", "art", "write", "create", "idea", "inspiration", "project"]),
   ("wellbeing", ["wellbeing", "happiness", "mood", "emotion", "feel", "mental", "meditation", "mindfulness"])]

/-- `\b` holds after the end of a match when the next character is not a word
character (or the text ends there). -/
def rightBoundary (rest : List Char) : Bool :=
  match rest with
  | [] => true
  | c :: _ => !(wordChar c)

/-- Left-to-right scan of `text.match(/\bkw\b/g)` counting non-overlapping
matches of the (nonempty) keyword `k :: ks`, with `prev` the character just
before the current position (`none` at the start of the text). Structural in
`fuel` so that the kernel can evaluate it; each step strictly shortens the
list, so `fuel = l.length + 1` is never exhausted. -/
def scanCount (k : Char) (ks : List Char) : Nat → Option Char → List Char → Nat
  | 0, _, _ => 0
  | fuel + 1, prev, l =>
    let leftOk : Bool := match prev with | none => true | some c => !(wordChar c)
    if leftOk && (k :: ks).isPrefixOf l && rightBoundary (l.drop (ks.length + 1)) then
      1 + scanCount k ks fuel (some (ks.getLastD k)) (l.drop (ks.length + 1))
    else
      match l with
      | [] => 0
      | c :: t => scanCount k ks fuel (some c) t

/-- The number of regex matches of `/\bkeyword\b/gi` in the lower-cased text;
an empty keyword never arises in the table. -/
def countMatches (kw : List Char) (text : List Char) : Nat :=
  match kw with
  | [] => 0
  | k :: ks => scanCount k ks (text.length + 1) none text

/-- `identifyTopics(text, maxTopics = 3)` from `mentorUtils.js`: per-topic
keyword match counts over the lower-cased text, keep positive scores, sort by
descending score (JS `sort` is stable, so ties keep declaration order), and
take the first `maxTopics` topic names. -/
def identifyTopics (text : Option String) (maxTopics : Nat := 3) : List String :=
  match text with
  | none => []
  | some t =>
    if t.isEmpty then [] else
    let lowerText := t.toList.map lcase
    let topicScores : List (String × Nat) :=
      topicKeywords.map (fun p =>
        (p.1, (p.2.map (fun kw => countMatches kw.toList lowerText)).sum))
    let sortedTopics :=
      ((topicScores.filter (fun p => p.2 > 0)).insertionSort
        (fun a b => b.2 ≤ a.2)).map (fun p => p.1)
    sortedTopics.take maxTopics

end MentorUtils

/-- Notification priorities (`'high' | 'medium' | 'low'` strings in JS). -/
inductive Priority where
  | high
  | medium
  | low
  deriving DecidableEq, Repr

/-- A queued notification record as built by `MentorService.generateNotifications`
in the README: `{type, title, message, priority, triggerTime}` (those records
carry no `id` key, so `id` is `none`, modelling JS `undefined`). `triggerTime`
is a millisecond timestamp. -/
structure Notification where
  id : Option String
  type : String
  title : String
  message : String
  priority : Priority
  triggerTime : Int
  deriving DecidableEq, Repr

/-- A user profile as consumed by `calculateOptimalDeliveryTime`; only its
presence (JS truthiness) matters there. -/
structure UserProfile where
  mentorStyle : Option String
  deriving DecidableEq, Repr

namespace MentorUtils

/-- `calculateOptimalDeliveryTime(userProfile, notification)` from
`mentorUtils.js`, with the clock passed explicitly: `now` when either
argument is missing or the priority is high, `now + 5` minutes for medium,
`now + 30` minutes for low (`Date.setMinutes` is exact
minute-in-milliseconds addition). -/
def calculateOptimalDeliveryTime (now : Int) (userProfile : Option UserProfile)
    (notification : Option Notification) : Int :=
  match userProfile, notification with
  | some _, some n =>
    match n.priority with
    | .high => now
    | .medium => now + 5 * 60 * 1000
    | .low => now + 30 * 60 * 1000
  | _, _ => now

end MentorUtils

namespace MentorCore

/-! ### `MentorService` (`src/services/mentorService.js` as given in the README) -/

/-- The insight bundle produced by `extractInsights`. -/
structure Insights where
  topics : List String
  sentiment : Option MentorUtils.Sentiment
  actionItems : List String
  questions : List String
  deriving DecidableEq, Repr

/-- A conversation record as consumed by `extractInsights` (which reads its
`topics` and `sentiment` keys). -/
structure ConversationData where
  text : String
  sentiment : Option MentorUtils.Sentiment
  topics : List String
  deriving DecidableEq, Repr

/-- The `MentorService` state: user profile, conversation history and the
notification queue. History entries are `(timestamp, data, insights)`. -/
structure MentorService where
  userProfile : Insights
  conversationHistory : List (Int × ConversationData × Insights)
  notificationQueue : List Notification
  deriving DecidableEq, Repr

/-- The freshly constructed service (empty profile, history and queue). -/
def emptyService : MentorService :=
  { userProfile := ⟨[], none, [], []⟩, conversationHistory := [], notificationQueue := [] }

/-- The priority rank used by `sortNotificationQueue`:
`{ high: 0, medium: 1, low: 2 }`. -/
def priorityOrder : Priority → Nat
  | .high => 0
  | .medium => 1
  | .low => 2

/-- The order imposed by `sortNotificationQueue`'s comparator: by priority
rank first, then by trigger time. -/
def notifLE (a b : Notification) : Prop :=
  priorityOrder a.priority < priorityOrder b.priority ∨
    (priorityOrder a.priority = priorityOrder b.priority ∧ a.triggerTime ≤ b.triggerTime)

instance : DecidableRel notifLE := fun a b => by
  unfold notifLE
  exact inferInstance

instance : IsTotal Notification notifLE :=
  ⟨fun a b => by unfold notifLE; omega⟩

instance : IsTrans Notification notifLE :=
  ⟨fun a b c hab hbc => by unfold notifLE at *; omega⟩

/-- `sortNotificationQueue`: sort by (priority rank, trigger time). JS
`Array.sort` is stable, as is insertion sort. -/
def sortNotificationQueue (q : List Notification) : List Notification :=
  q.insertionSort notifLE

/-- `queueNotification(notification)`: push onto the queue, then re-sort. -/
def queueNotification (s : MentorService) (n : Notification) : MentorService :=
  { s with notificationQueue := sortNotificationQueue (s.notificationQueue ++ [n]) }

/-- `getPendingNotifications()`: the queued notifications with
`triggerTime <= now`, in queue order; the clock is passed explicitly. -/
def getPendingNotifications (now : Int) (s : MentorService) : List Notification :=
  s.notificationQueue.filter (fun n => n.triggerTime ≤ now)

/-- `markNotificationsAsSent(notificationIds)`: keep exactly the queued
notifications whose id is not in the given list. -/
def markNotificationsAsSent (s : MentorService) (notificationIds : List (Option String)) :
    MentorService :=
  { s with notificationQueue :=
      s.notificationQueue.filter (fun n => !(notificationIds.contains n.id)) }

/-- README helper stub: `extractActionItems(conversationData)` returns `[]`. -/
def extractActionItems (_data : ConversationData) : List String := []

/-- README helper stub: `extractQuestions(conversationData)` returns `[]`. -/
def extractQuestions (_data : ConversationData) : List String := []

/-- README helper stub: `calculatePriority(actionItem)` returns `'medium'`. -/
def calculatePriority (_actionItem : String) : Priority := .medium

/-- README helper stub: `calculateOptimalTriggerTime(actionItem)` returns one
hour from now. -/
def calculateOptimalTriggerTime (now : Int) (_actionItem : String) : Int :=
  now + 60 * 60 * 1000

/-- README helper: the fixed encouragement message. -/
def generateEncouragementMessage (_insights : Insights) : String :=
  "I noticed you might be feeling down. Remember, challenges are opportunities for growth!"

/-- The action-reminder record enqueued by `generateNotifications` for one
action item (the object literal carries no `id` key). -/
def actionReminderNotification (now : Int) (item : String) : Notification :=
  { id := none
    type := "action_reminder"
    title := "Action Item Reminder"
    message := "Don\x27t forget to: " ++ item
    priority := calculatePriority item
    triggerTime := calculateOptimalTriggerTime now item }

/-- The encouragement record enqueued by `generateNotifications` when the
sentiment score is below 0.3 (triggerTime is 15 minutes from now; the object
literal carries no `id` key). -/
def encouragementNotification (now : Int) (insights : Insights) : Notification :=
  { id := none
    type := "encouragement"
    title := "A little encouragement"
    message := generateEncouragementMessage insights
    priority := .medium
    triggerTime := now + 15 * 60 * 1000 }

/-- `generateNotifications(insights)`: one action-reminder notification per
action item, and one encouragement notification when the sentiment insight is
present with score below 0.3. The clock is passed explicitly. -/
def generateNotifications (now : Int) (insights : Insights) (s : MentorService) :
    MentorService :=
  let s1 := insights.actionItems.foldl
    (fun st item => queueNotification st (actionReminderNotification now item)) s
  match insights.sentiment with
  | some sentiment =>
    if sentiment.score < 3/10 then
      queueNotification s1 (encouragementNotification now insights)
    else s1
  | none => s1

/-- `extractInsights(conversationData)` from the README (the action-item and
question helpers there are stubs returning `[]`). -/
def extractInsights (data : ConversationData) : Insights :=
  { topics := data.topics
    sentiment := data.sentiment
    actionItems := extractActionItems data
    questions := extractQuestions data }

/-- `updateUserProfile(conversationData)`: derive insights, merge them into
the profile (the object spread overwrites every insight key), append to
history, then generate notifications. -/
def updateUserProfile (now : Int) (data : ConversationData) (s : MentorService) :
    MentorService :=
  let insights := extractInsights data
  let s' := { s with
    userProfile := insights
    conversationHistory := s.conversationHistory ++ [(now, data, insights)] }
  generateNotifications now insights s'

end MentorCore

namespace NotifSvc

/-! ### `NotificationService` (`src/services/notificationService.js` in the README) -/

/-- The service object: `notificationInterval` is the stored `setInterval`
handle (`null` initially). -/
structure NotificationService where
  notificationInterval : Option Nat
  deriving DecidableEq, Repr

/-- The service together with the host timer registry: `activeIntervals` is
the set of interval timers currently registered with the host (a
`setInterval` adds a fresh handle; `clearInterval` removes one), and
`nextId` numbers fresh handles (starting at 1, as real handles are truthy). -/
structure TimerWorld where
  svc : NotificationService
  activeIntervals : List Nat
  nextId : Nat
  deriving DecidableEq, Repr

/-- The world before any call: no stored handle, no active timers. -/
def initialWorld : TimerWorld :=
  { svc := ⟨none⟩, activeIntervals := [], nextId := 1 }

/-- `start()`: unconditionally `setInterval` a new recurring check and store
its handle (overwriting any previous one). -/
def start (w : TimerWorld) : TimerWorld :=
  { svc := { notificationInterval := some w.nextId }
    activeIntervals := w.activeIntervals ++ [w.nextId]
    nextId := w.nextId + 1 }

/-- `stop()`: if a handle is stored, `clearInterval` it and clear the field. -/
def stop (w : TimerWorld) : TimerWorld :=
  match w.svc.notificationInterval with
  | some i =>
    { svc := ⟨none⟩
      activeIntervals := w.activeIntervals.filter (fun j => j != i)
      nextId := w.nextId }
  | none => w

/-- The observable outcome of one `checkAndSendNotifications()` tick. -/
structure TickResult where
  attempted : List Notification
  sentNotificationIds : List (Option String)
  markSentCalls : Nat
  service : MentorCore.MentorService
  deriving Repr

/-- `checkAndSendNotifications()`: fetch the pending notifications; if none,
return early. Otherwise attempt `sendNotification` on each in order — a
throw is caught per item (`dispatchOk` gives each attempt's outcome) — push
the id of each success, and finally call `markNotificationsAsSent` once with
the collected ids. -/
def checkAndSendNotifications (dispatchOk : Notification → Bool) (now : Int)
    (s : MentorCore.MentorService) : TickResult :=
  let pendingNotifications := MentorCore.getPendingNotifications now s
  if pendingNotifications.length = 0 then
    { attempted := [], sentNotificationIds := [], markSentCalls := 0, service := s }
  else
    let loop := pendingNotifications.foldl
      (fun (acc : List Notification × List (Option String)) n =>
        if dispatchOk n then (acc.1 ++ [n], acc.2 ++ [n.id]) else (acc.1 ++ [n], acc.2))
      ([], [])
    { attempted := loop.1
      sentNotificationIds := loop.2
      markSentCalls := 1
      service := MentorCore.markNotificationsAsSent s loop.2 }

end NotifSvc

namespace SpecModel

/-! ### Spec-side restatement of the sentiment contract (for refinement) -/

/-- The spec formula for the sentiment score:
`clamp(0.5 + 2.5 * (posRatio - negRatio), 0, 1)` with the keyword-hit counts
divided by the total token count, and `0.5` for empty or null text. -/
def sentimentSpecScore (text : Option String) : ℚ :=
  match text with
  | none => 1/2
  | some t =>
    if t.isEmpty then 1/2 else
    let words := MentorUtils.sentimentWords t
    let pos := (words.filter (fun w => MentorUtils.positiveWords.contains w)).length
    let neg := (words.filter (fun w => MentorUtils.negativeWords.contains w)).length
    let total := words.length
    ratClamp01 (1/2 + 5/2 * ((pos : ℚ) / total - (neg : ℚ) / total))

/-- The spec's fixed threshold mapping from score to label. -/
def labelOfScore (score : ℚ) : String :=
  if score ≥ 3/4 then "very positive"
  else if score ≥ 3/5 then "positive"
  else if score ≥ 2/5 then "neutral"
  else if score ≥ 1/4 then "negative"
  else "very negative"

end SpecModel

/-- The number of queued notifications of a given type. -/
def countType (ty : String) (q : List Notification) : Nat :=
  q.countP (fun n => n.type == ty)

namespace MentorCore

/-! ### Helper lemmas about the queue operations -/

theorem countP_sortNotificationQueue (p : Notification → Bool) (q : List Notification) :
    (sortNotificationQueue q).countP p = q.countP p :=
  (List.perm_insertionSort notifLE q).countP_eq p

theorem countP_queueNotification (p : Notification → Bool) (s : MentorService)
    (n : Notification) :
    ((queueNotification s n).notificationQueue).countP p =
      s.notificationQueue.countP p + (if p n then 1 else 0) := by
  simp [queueNotification, countP_sortNotificationQueue, List.countP_append, List.countP_cons]

theorem countType_queueNotification (ty : String) (s : MentorService) (n : Notification) :
    countType ty (queueNotification s n).notificationQueue =
      countType ty s.notificationQueue + (if n.type == ty then 1 else 0) := by
  simp only [countType, countP_queueNotification]

theorem actionReminderNotification_type (now : Int) (item : String) :
    (actionReminderNotification now item).type = "action_reminder" := rfl

theorem countType_foldl_actions (ty : String) (now : Int) (items : List String)
    (s : MentorService) :
    countType ty
        ((items.foldl (fun st item => queueNotification st (actionReminderNotification now item)) s).notificationQueue) =
      countType ty s.notificationQueue +
        (if ("action_reminder" == ty) then items.length else 0) := by
  induction items generalizing s with
  | nil => simp
  | cons hd tl ih =>
    simp only [List.foldl_cons, ih, countType_queueNotification,
      actionReminderNotification_type]
    by_cases h : ("action_reminder" == ty) <;> simp [h] <;> omega

theorem sorted_queueNotification (s : MentorService) (n : Notification) :
    ((queueNotification s n).notificationQueue).Sorted notifLE :=
  List.sorted_insertionSort notifLE _

theorem sorted_markNotificationsAsSent (s : MentorService) (ids : List (Option String))
    (h : s.notificationQueue.Sorted notifLE) :
    ((markNotificationsAsSent s ids).notificationQueue).Sorted notifLE :=
  List.Pairwise.filter _ h

end MentorCore

/-! ### Claim theorems -/

/-- C10: the filler-word strip of `extractActionItems` applies its prefix
regex without a word-boundary requirement, so for the sentence
"Someone will review the document tomorrow" (matched via "will", whose first
word merely begins with the filler word "so") the returned action item is the
sentence with the two leading characters removed, not the intact sentence. -/
theorem C10_filler_strip_no_word_boundary :
    MentorUtils.extractActionItems (some "Someone will review the document tomorrow") =
      ["meone will review the document tomorrow"] ∧
    "meone will review the document tomorrow" ≠
      "Someone will review the document tomorrow" := by
  constructor
  · decide
  · decide

/-- C8: `markNotificationsAsSent` removes from the queue exactly the
notifications whose id is in the given set, silently ignoring absent ids
(membership is unchanged for every notification whose id is not listed), and
it is idempotent. -/
theorem C8_markSent_exact_and_idempotent :
    ∀ (s : MentorCore.MentorService) (ids : List (Option String)),
      (∀ n, n ∈ (MentorCore.markNotificationsAsSent s ids).notificationQueue ↔
        n ∈ s.notificationQueue ∧ ids.contains n.id = false) ∧
      MentorCore.markNotificationsAsSent (MentorCore.markNotificationsAsSent s ids) ids =
        MentorCore.markNotificationsAsSent s ids := by
  intro s ids
  constructor
  · intro n
    simp [MentorCore.markNotificationsAsSent, List.mem_filter]
  · cases s
    simp [MentorCore.markNotificationsAsSent, List.filter_filter]

/-- C6 counterexample: `start()` is not idempotent. Starting twice from the
initial Stopped world registers two recurring interval checks; the stored
handle only remembers the second, so a subsequent `stop()` cancels one check
and leaves the first one active (`activeIntervals = [1] ≠ []`), contradicting
"a single recurring check that a subsequent stop() fully cancels". -/
theorem C6_counterexample :
    (NotifSvc.start (NotifSvc.start NotifSvc.initialWorld)).activeIntervals = [1, 2] ∧
    (NotifSvc.stop (NotifSvc.start (NotifSvc.start NotifSvc.initialWorld))).activeIntervals
      = [1] ∧
    ([1] : List Nat) ≠ [] := by
  refine ⟨by decide, by decide, by decide⟩

/-- C6 amended: `start()` takes the Stopped state to Running, but it is not
idempotent: every call registers one more recurring check and overwrites the
stored handle, so after two `start()` calls a `stop()` clears the stored
handle and cancels only the most recently started check, leaving the earlier
one running. `stop()` on a Stopped world is a no-op. -/
theorem C6_start_not_idempotent :
    ((NotifSvc.start NotifSvc.initialWorld).svc.notificationInterval = some 1 ∧
      (NotifSvc.start NotifSvc.initialWorld).activeIntervals = [1]) ∧
    (∀ w : NotifSvc.TimerWorld,
      (NotifSvc.start w).svc.notificationInterval = some w.nextId ∧
      (NotifSvc.start w).activeIntervals.length = w.activeIntervals.length + 1) ∧
    ((NotifSvc.stop (NotifSvc.start (NotifSvc.start NotifSvc.initialWorld))).svc.notificationInterval
        = none ∧
      (NotifSvc.stop (NotifSvc.start (NotifSvc.start NotifSvc.initialWorld))).activeIntervals
        = [1]) ∧
    (∀ w : NotifSvc.TimerWorld, w.svc.notificationInterval = none → NotifSvc.stop w = w) := by
  refine ⟨⟨by decide, by decide⟩, ?_, ⟨by decide, by decide⟩, ?_⟩
  · intro w
    constructor
    · rfl
    · simp [NotifSvc.start]
  · intro w h
    simp [NotifSvc.stop, h]

/-- C6 witness: the amended theorem applied at the initial world, discharging
the Stopped hypothesis of its last conjunct concretely. -/
theorem C6_witness :
    NotifSvc.initialWorld.svc.notificationInterval = none ∧
    NotifSvc.stop NotifSvc.initialWorld = NotifSvc.initialWorld :=
  ⟨by decide, C6_start_not_idempotent.2.2.2 NotifSvc.initialWorld (by decide)⟩

/-- C5 (code bug evidence): notifications enqueued by the profile store carry
no id at all (the object literals in `generateNotifications` have no `id`
key), so two enqueues — e.g. two `generateNotifications` calls with a
sentiment insight of score 0.2 — leave the queue with two notifications
whose ids are equal (both `undefined`), violating the id-uniqueness
invariant the claim states. -/
theorem C5_duplicate_ids_reachable :
    (MentorCore.generateNotifications 0 ⟨[], some ⟨1/5, "negative"⟩, [], []⟩
        (MentorCore.generateNotifications 0 ⟨[], some ⟨1/5, "negative"⟩, [], []⟩
          MentorCore.emptyService)).notificationQueue.length = 2 ∧
    (MentorCore.generateNotifications 0 ⟨[], some ⟨1/5, "negative"⟩, [], []⟩
        (MentorCore.generateNotifications 0 ⟨[], some ⟨1/5, "negative"⟩, [], []⟩
          MentorCore.emptyService)).notificationQueue.map (fun n => n.id) = [none, none] ∧
    ¬ ((MentorCore.generateNotifications 0 ⟨[], some ⟨1/5, "negative"⟩, [], []⟩
        (MentorCore.generateNotifications 0 ⟨[], some ⟨1/5, "negative"⟩, [], []⟩
          MentorCore.emptyService)).notificationQueue.map (fun n => n.id)).Nodup := by
  refine ⟨?_, ?_, ?_⟩ <;> with_unfolding_all decide

/-- C3 counterexample: on the claimed input the extracted action item is the
whole first sentence "I need to finish the report by tomorrow" — the filler
strip removes nothing from it — so no returned entry begins with
"finish the report". -/
theorem C3_counterexample :
    MentorUtils.extractActionItems
        (some "I need to finish the report by tomorrow. It was a great meeting.") =
      ["I need to finish the report by tomorrow"] ∧
    ("finish the report".toList).isPrefixOf
        ("I need to finish the report by tomorrow".toList) = false := by
  refine ⟨by decide, by decide⟩

/-- C3 amended: for the input
"I need to finish the report by tomorrow. It was a great meeting." the
extracted action items are exactly ["I need to finish the report by
tomorrow"] — an entry that contains (but does not begin with) "finish the
report" — the sentiment label is "positive", and the identified topics
include "work". -/
theorem C3_scenario :
    MentorUtils.extractActionItems
        (some "I need to finish the report by tomorrow. It was a great meeting.") =
      ["I need to finish the report by tomorrow"] ∧
    hasSubstr ("I need to finish the report by tomorrow".toList)
        ("finish the report".toList) = true ∧
    (MentorUtils.analyzeSentiment
        (some "I need to finish the report by tomorrow. It was a great meeting.")).label
      = "positive" ∧
    "work" ∈ MentorUtils.identifyTopics
        (some "I need to finish the report by tomorrow. It was a great meeting.") 3 := by
  refine ⟨by decide, by decide, ?_, by decide⟩
  with_unfolding_all decide

/-- C2 counterexample: `generateNotifications` does not compute trigger
times from `calculateOptimalDeliveryTime`. With a sentiment insight of score
0.2 at time 0 it enqueues exactly one medium-priority notification with
`triggerTime = 900000` (15 minutes), while the delivery-time policy maps
medium priority to `now + 300000` (5 minutes). -/
theorem C2_counterexample :
    (MentorCore.generateNotifications 0 ⟨[], some ⟨1/5, "negative"⟩, [], []⟩
        MentorCore.emptyService).notificationQueue.map
          (fun n => (n.priority, n.triggerTime)) = [(Priority.medium, 900000)] ∧
    MentorUtils.calculateOptimalDeliveryTime 0 (some ⟨none⟩)
        (some ⟨none, "encouragement", "A little encouragement",
          MentorCore.generateEncouragementMessage ⟨[], some ⟨1/5, "negative"⟩, [], []⟩,
          Priority.medium, 900000⟩) = 300000 ∧
    (900000 : Int) ≠ 300000 := by
  refine ⟨?_, by decide, by decide⟩
  with_unfolding_all decide

/-- C1: `getPendingNotifications` returns exactly the queued notifications
with `triggerTime ≤ now` (membership characterization), in an order sorted
by priority urgency then ascending triggerTime whenever the queue is sorted —
which every reachable queue is, since enqueuing re-sorts and removal
preserves sortedness. In particular, three due notifications enqueued with
priorities low, high, medium come back as [high, medium, low]. -/
theorem C1_getPendingNotifications_order :
    (∀ (s : MentorCore.MentorService) (now : Int),
      (∀ n, n ∈ MentorCore.getPendingNotifications now s ↔
          n ∈ s.notificationQueue ∧ n.triggerTime ≤ now) ∧
      (s.notificationQueue.Sorted MentorCore.notifLE →
        (MentorCore.getPendingNotifications now s).Sorted MentorCore.notifLE)) ∧
    (∀ (s : MentorCore.MentorService) (n : Notification),
      ((MentorCore.queueNotification s n).notificationQueue).Sorted MentorCore.notifLE) ∧
    (∀ (s : MentorCore.MentorService) (ids : List (Option String)),
      s.notificationQueue.Sorted MentorCore.notifLE →
      ((MentorCore.markNotificationsAsSent s ids).notificationQueue).Sorted
        MentorCore.notifLE) ∧
    MentorCore.getPendingNotifications 0
        (MentorCore.queueNotification
          (MentorCore.queueNotification
            (MentorCore.queueNotification MentorCore.emptyService
              ⟨none, "t", "Low", "l", Priority.low, 0⟩)
            ⟨none, "t", "High", "h", Priority.high, 0⟩)
          ⟨none, "t", "Medium", "m", Priority.medium, 0⟩) =
      [⟨none, "t", "High", "h", Priority.high, 0⟩,
       ⟨none, "t", "Medium", "m", Priority.medium, 0⟩,
       ⟨none, "t", "Low", "l", Priority.low, 0⟩] := by
  refine ⟨?_, ?_, ?_, by decide⟩
  · intro s now
    constructor
    · intro n
      simp [MentorCore.getPendingNotifications, List.mem_filter]
    · intro h
      exact List.Pairwise.filter _ h
  · intro s n
    exact MentorCore.sorted_queueNotification s n
  · intro s ids h
    exact MentorCore.sorted_markNotificationsAsSent s ids h

/-- C1 witness: the sortedness conclusions of `C1_getPendingNotifications_order`
instantiated at the concrete three-notification queue, with both sortedness
hypotheses discharged by computation. -/
theorem C1_witness :
    (MentorCore.getPendingNotifications 0
        (MentorCore.queueNotification
          (MentorCore.queueNotification
            (MentorCore.queueNotification MentorCore.emptyService
              ⟨none, "t", "Low", "l", Priority.low, 0⟩)
            ⟨none, "t", "High", "h", Priority.high, 0⟩)
          ⟨none, "t", "Medium", "m", Priority.medium, 0⟩)).Sorted MentorCore.notifLE ∧
    ((MentorCore.markNotificationsAsSent
        (MentorCore.queueNotification
          (MentorCore.queueNotification
            (MentorCore.queueNotification MentorCore.emptyService
              ⟨none, "t", "Low", "l", Priority.low, 0⟩)
            ⟨none, "t", "High", "h", Priority.high, 0⟩)
          ⟨none, "t", "Medium", "m", Priority.medium, 0⟩)
        [some "x"]).notificationQueue).Sorted MentorCore.notifLE :=
  ⟨(C1_getPendingNotifications_order.1 _ 0).2 (by decide),
   C1_getPendingNotifications_order.2.2.1 _ [some "x"] (by decide)⟩

theorem MentorCore.encouragementNotification_type (now : Int) (insights : MentorCore.Insights) :
    (MentorCore.encouragementNotification now insights).type = "encouragement" := rfl

/-- C2 amended: `calculateOptimalDeliveryTime` does implement the
priority-based delivery-time policy (high → now, medium → now + 5 min,
low → now + 30 min, and now when either argument is missing), but the
profile store's notification-generation step does not use it: action-item
notifications get `now + 60` minutes and the sentiment encouragement gets
`now + 15` minutes (not the 5 minutes the policy assigns its medium
priority). A notification whose triggerTime is `T + 30` minutes — as the
policy gives a low-priority one — queued at `T` into an empty queue is
absent from `getPendingNotifications(T)` and present at `T + 30` minutes. -/
theorem C2_delivery_policy_not_used_by_enqueue :
    (∀ (now : Int) (p : UserProfile) (n : Notification),
      MentorUtils.calculateOptimalDeliveryTime now (some p) (some n) =
        now + (match n.priority with
               | .high => 0
               | .medium => 300000
               | .low => 1800000)) ∧
    (∀ (now : Int) (nOpt : Option Notification),
      MentorUtils.calculateOptimalDeliveryTime now none nOpt = now) ∧
    (∀ (now : Int) (pOpt : Option UserProfile),
      MentorUtils.calculateOptimalDeliveryTime now pOpt none = now) ∧
    (∀ (now : Int) (item : String),
      MentorCore.calculateOptimalTriggerTime now item = now + 3600000) ∧
    (∀ T : Int,
      (MentorCore.generateNotifications T ⟨[], some ⟨1/5, "negative"⟩, [], []⟩
          MentorCore.emptyService).notificationQueue.map
            (fun n => (n.priority, n.triggerTime)) = [(Priority.medium, T + 900000)]) ∧
    (∀ (T : Int) (n : Notification), n.triggerTime = T + 1800000 →
      MentorCore.getPendingNotifications T
          (MentorCore.queueNotification MentorCore.emptyService n) = [] ∧
      MentorCore.getPendingNotifications (T + 1800000)
          (MentorCore.queueNotification MentorCore.emptyService n) = [n]) := by
  refine ⟨?_, ?_, ?_, ?_, ?_, ?_⟩
  · intro now p n
    rcases n with ⟨i, ty, ti, msg, pr, tt⟩
    cases pr <;> simp [MentorUtils.calculateOptimalDeliveryTime]
  · intro now nOpt
    cases nOpt <;> rfl
  · intro now pOpt
    cases pOpt <;> rfl
  · intro now item
    show now + 60 * 60 * 1000 = now + 3600000
    norm_num
  · intro T
    have h : ((1 : ℚ)/5) < 3/10 := by norm_num
    simp [MentorCore.generateNotifications, h, MentorCore.queueNotification,
      MentorCore.sortNotificationQueue, List.insertionSort, List.orderedInsert,
      MentorCore.emptyService, MentorCore.encouragementNotification]
    norm_num
  · intro T n h
    constructor
    · simp [MentorCore.getPendingNotifications, MentorCore.queueNotification,
        MentorCore.sortNotificationQueue, List.insertionSort, List.orderedInsert,
        MentorCore.emptyService, h]
    · simp [MentorCore.getPendingNotifications, MentorCore.queueNotification,
        MentorCore.sortNotificationQueue, List.insertionSort, List.orderedInsert,
        MentorCore.emptyService, h]

/-- C2 witness: the last conjunct of the amended theorem applied to a
concrete notification with `triggerTime = 0 + 1800000`, its hypothesis
discharged by computation. -/
theorem C2_witness :
    MentorCore.getPendingNotifications 0
        (MentorCore.queueNotification MentorCore.emptyService
          ⟨none, "x", "x", "x", Priority.low, 0 + 1800000⟩) = [] ∧
    MentorCore.getPendingNotifications (0 + 1800000)
        (MentorCore.queueNotification MentorCore.emptyService
          ⟨none, "x", "x", "x", Priority.low, 0 + 1800000⟩) =
      [⟨none, "x", "x", "x", Priority.low, 0 + 1800000⟩] :=
  C2_delivery_policy_not_used_by_enqueue.2.2.2.2.2 0
    ⟨none, "x", "x", "x", Priority.low, 0 + 1800000⟩ (by decide)

/-- C9: `generateNotifications` enqueues exactly one encouragement
notification when the sentiment insight is present with score < 0.3 and none
otherwise (counted by type), always enqueues one action reminder per action
item, and at time T with a score-0.2 sentiment insight and no action items
it enqueues exactly the single medium-priority encouragement notification
with `triggerTime = T + 15` minutes. -/
theorem C9_sentiment_threshold_enqueue :
    (∀ (now : Int) (insights : MentorCore.Insights) (s : MentorCore.MentorService),
      countType "encouragement"
          ((MentorCore.generateNotifications now insights s).notificationQueue) =
        countType "encouragement" s.notificationQueue +
          (match insights.sentiment with
           | some sn => if sn.score < 3/10 then 1 else 0
           | none => 0)) ∧
    (∀ (now : Int) (insights : MentorCore.Insights) (s : MentorCore.MentorService),
      countType "action_reminder"
          ((MentorCore.generateNotifications now insights s).notificationQueue) =
        countType "action_reminder" s.notificationQueue + insights.actionItems.length) ∧
    (∀ T : Int,
      (MentorCore.generateNotifications T ⟨[], some ⟨1/5, "negative"⟩, [], []⟩
          MentorCore.emptyService).notificationQueue =
        [⟨none, "encouragement", "A little encouragement",
          MentorCore.generateEncouragementMessage ⟨[], some ⟨1/5, "negative"⟩, [], []⟩,
          Priority.medium, T + 900000⟩]) := by
  refine ⟨?_, ?_, ?_⟩
  · intro now insights s
    simp only [MentorCore.generateNotifications]
    cases hs : insights.sentiment with
    | none => simp [MentorCore.countType_foldl_actions]
    | some sn =>
      by_cases hlt : sn.score < 3/10
      · simp [hlt, MentorCore.countType_queueNotification,
          MentorCore.encouragementNotification_type, MentorCore.countType_foldl_actions]
      · simp [hlt, MentorCore.countType_foldl_actions]
  · intro now insights s
    simp only [MentorCore.generateNotifications]
    cases hs : insights.sentiment with
    | none => simp [MentorCore.countType_foldl_actions]
    | some sn =>
      by_cases hlt : sn.score < 3/10
      · simp [hlt, MentorCore.countType_queueNotification,
          MentorCore.encouragementNotification_type, MentorCore.countType_foldl_actions]
      · simp [hlt, MentorCore.countType_foldl_actions]
  · intro T
    have h : ((1 : ℚ)/5) < 3/10 := by norm_num
    simp [MentorCore.generateNotifications, h, MentorCore.queueNotification,
      MentorCore.sortNotificationQueue, List.insertionSort, List.orderedInsert,
      MentorCore.emptyService, MentorCore.encouragementNotification]
    norm_num

theorem NotifSvc.tickLoop_spec (dispatchOk : Notification → Bool) (l : List Notification)
    (a : List Notification × List (Option String)) :
    (l.foldl (fun acc n => if dispatchOk n then (acc.1 ++ [n], acc.2 ++ [n.id])
        else (acc.1 ++ [n], acc.2)) a) =
      (a.1 ++ l, a.2 ++ (l.filter dispatchOk).map (fun n => n.id)) := by
  induction l generalizing a with
  | nil => simp
  | cons hd tl ih =>
    by_cases h : dispatchOk hd <;> simp [h, ih, List.filter_cons]

/-- C7 counterexample: because queued notifications share the id `undefined`
(none), a failed notification does not always remain in the queue. With two
due notifications where dispatch succeeds for the first and fails for the
second, `markNotificationsAsSent` is called with `[none]` and removes both,
so the failed one is gone after the tick. -/
theorem C7_counterexample :
    (⟨none, "t", "B", "b", Priority.high, 0⟩ : Notification) ∈
      MentorCore.getPendingNotifications 0
        (MentorCore.queueNotification
          (MentorCore.queueNotification MentorCore.emptyService
            ⟨none, "t", "A", "a", Priority.high, 0⟩)
          ⟨none, "t", "B", "b", Priority.high, 0⟩) ∧
    ((⟨none, "t", "B", "b", Priority.high, 0⟩ : Notification).message == "a") = false ∧
    (NotifSvc.checkAndSendNotifications (fun n => n.message == "a") 0
        (MentorCore.queueNotification
          (MentorCore.queueNotification MentorCore.emptyService
            ⟨none, "t", "A", "a", Priority.high, 0⟩)
          ⟨none, "t", "B", "b", Priority.high, 0⟩)).service.notificationQueue = [] := by
  refine ⟨by decide, by decide, by decide⟩

/-- C7 amended: on a tick with at least one failing pending notification,
every pending notification is still attempted (in delivery order),
`markNotificationsAsSent` is called exactly once with the ids of all
successful dispatches (batched), and every failed notification whose id is
not among the successfully dispatched ids remains in the queue afterwards.
(Without the id proviso the conclusion fails: see the counterexample, where
ids collide because enqueued notifications carry no id.) -/
theorem C7_tick_failure_isolation (dispatchOk : Notification → Bool) (now : Int)
    (s : MentorCore.MentorService)
    (h : ∃ n ∈ MentorCore.getPendingNotifications now s, dispatchOk n = false) :
    (NotifSvc.checkAndSendNotifications dispatchOk now s).attempted =
      MentorCore.getPendingNotifications now s ∧
    (NotifSvc.checkAndSendNotifications dispatchOk now s).markSentCalls = 1 ∧
    (NotifSvc.checkAndSendNotifications dispatchOk now s).sentNotificationIds =
      ((MentorCore.getPendingNotifications now s).filter dispatchOk).map (fun n => n.id) ∧
    (∀ n ∈ MentorCore.getPendingNotifications now s, dispatchOk n = false →
      ((((MentorCore.getPendingNotifications now s).filter dispatchOk).map
          (fun n => n.id)).contains n.id) = false →
      n ∈ (NotifSvc.checkAndSendNotifications dispatchOk now s).service.notificationQueue) := by
  have hne : ¬ ((MentorCore.getPendingNotifications now s).length = 0) := by
    intro hlen
    obtain ⟨n, hn, _⟩ := h
    rw [List.length_eq_zero] at hlen
    simp [hlen] at hn
  simp only [NotifSvc.checkAndSendNotifications, if_neg hne, NotifSvc.tickLoop_spec,
    List.nil_append]
  refine ⟨trivial, trivial, trivial, ?_⟩
  intro n hn hfail hnotin
  have hq : n ∈ s.notificationQueue := by
    simp only [MentorCore.getPendingNotifications, List.mem_filter] at hn
    exact hn.1
  simp only [MentorCore.markNotificationsAsSent]
  exact List.mem_filter.mpr ⟨hq, by rw [hnotin]; rfl⟩

/-- C7 witness: the amended theorem applied to a concrete two-notification
queue with distinct ids where one dispatch fails, the existence hypothesis
discharged by computation. -/
theorem C7_witness :
    (NotifSvc.checkAndSendNotifications (fun n => n.message == "a") 0
        (MentorCore.queueNotification
          (MentorCore.queueNotification MentorCore.emptyService
            ⟨some "idA", "t", "A", "a", Priority.high, 0⟩)
          ⟨some "idB", "t", "B", "b", Priority.high, 0⟩)).attempted =
      MentorCore.getPendingNotifications 0
        (MentorCore.queueNotification
          (MentorCore.queueNotification MentorCore.emptyService
            ⟨some "idA", "t", "A", "a", Priority.high, 0⟩)
          ⟨some "idB", "t", "B", "b", Priority.high, 0⟩) ∧
    (NotifSvc.checkAndSendNotifications (fun n => n.message == "a") 0
        (MentorCore.queueNotification
          (MentorCore.queueNotification MentorCore.emptyService
            ⟨some "idA", "t", "A", "a", Priority.high, 0⟩)
          ⟨some "idB", "t", "B", "b", Priority.high, 0⟩)).markSentCalls = 1 :=
  ⟨(C7_tick_failure_isolation (fun n => n.message == "a") 0
      (MentorCore.queueNotification
        (MentorCore.queueNotification MentorCore.emptyService
          ⟨some "idA", "t", "A", "a", Priority.high, 0⟩)
        ⟨some "idB", "t", "B", "b", Priority.high, 0⟩) (by decide)).1,
   (C7_tick_failure_isolation (fun n => n.message == "a") 0
      (MentorCore.queueNotification
        (MentorCore.queueNotification MentorCore.emptyService
          ⟨some "idA", "t", "A", "a", Priority.high, 0⟩)
        ⟨some "idB", "t", "B", "b", Priority.high, 0⟩) (by decide)).2.1⟩

theorem ratClamp01_nonneg (x : ℚ) : 0 ≤ ratClamp01 x := by
  unfold ratClamp01
  split_ifs <;> linarith

theorem ratClamp01_le_one (x : ℚ) : ratClamp01 x ≤ 1 := by
  unfold ratClamp01
  split_ifs <;> linarith

theorem MentorUtils.analyzeSentiment_score_eq (text : Option String) :
    (MentorUtils.analyzeSentiment text).score = SpecModel.sentimentSpecScore text := by
  cases text with
  | none => rfl
  | some t =>
    by_cases ht : t.isEmpty
    · simp [MentorUtils.analyzeSentiment, SpecModel.sentimentSpecScore, ht, ratClamp01]
    · simp only [MentorUtils.analyzeSentiment, SpecModel.sentimentSpecScore, if_neg ht]
      set W := MentorUtils.sentimentWords t with hW
      set p := (W.filter (fun w => MentorUtils.positiveWords.contains w)).length with hp
      set q := (W.filter (fun w => MentorUtils.negativeWords.contains w)).length with hq
      by_cases hpq : p > 0 ∨ q > 0
      · have hT : W.length > 0 := by
          rcases hpq with h | h
          · have := List.length_filter_le (fun w => MentorUtils.positiveWords.contains w) W
            omega
          · have := List.length_filter_le (fun w => MentorUtils.negativeWords.contains w) W
            omega
        have hcond : (decide (p > 0) || decide (q > 0)) = true := by
          rcases hpq with h | h <;> simp [h]
        simp only [hcond, if_true, if_pos hT]
        ring_nf
      · push_neg at hpq
        have hp0 : p = 0 := by omega
        have hq0 : q = 0 := by omega
        have hcond : (decide (p > 0) || decide (q > 0)) = false := by
          simp [hp0, hq0]
        simp only [hcond, Bool.false_eq_true, if_false, hp0, hq0]
        norm_num [ratClamp01]

theorem MentorUtils.analyzeSentiment_label_eq (text : Option String) :
    (MentorUtils.analyzeSentiment text).label =
      SpecModel.labelOfScore (MentorUtils.analyzeSentiment text).score := by
  cases text with
  | none =>
    show "neutral" = SpecModel.labelOfScore (1/2)
    norm_num [SpecModel.labelOfScore]
  | some t =>
    by_cases ht : t.isEmpty
    · simp only [MentorUtils.analyzeSentiment, if_pos ht]
      show "neutral" = SpecModel.labelOfScore (1/2)
      norm_num [SpecModel.labelOfScore]
    · simp only [MentorUtils.analyzeSentiment, if_neg ht, SpecModel.labelOfScore]

theorem SpecModel.sentimentSpecScore_bounds (text : Option String) :
    0 ≤ SpecModel.sentimentSpecScore text ∧ SpecModel.sentimentSpecScore text ≤ 1 := by
  cases text with
  | none => norm_num [SpecModel.sentimentSpecScore]
  | some t =>
    by_cases ht : t.isEmpty
    · simp [SpecModel.sentimentSpecScore, ht]
      norm_num
    · simp only [SpecModel.sentimentSpecScore, if_neg ht]
      exact ⟨ratClamp01_nonneg _, ratClamp01_le_one _⟩

/-- C4: for every input (including null and the empty string) the sentiment
analysis is total and returns a score in [0, 1] equal to
`clamp(0.5 + 2.5 * (posRatio - negRatio), 0, 1)` — with the positive and
negative keyword-hit counts divided by the total token count, and 0.5 for
empty or null text — and a label determined from the score by the fixed
thresholds (≥ 3/4 very positive, ≥ 3/5 positive, ≥ 2/5 neutral, ≥ 1/4
negative, else very negative). -/
theorem C4_analyzeSentiment_total_and_spec :
    ∀ text : Option String,
      0 ≤ (MentorUtils.analyzeSentiment text).score ∧
      (MentorUtils.analyzeSentiment text).score ≤ 1 ∧
      (MentorUtils.analyzeSentiment text).score = SpecModel.sentimentSpecScore text ∧
      (MentorUtils.analyzeSentiment text).label =
        SpecModel.labelOfScore (MentorUtils.analyzeSentiment text).score := by
  intro text
  have hs := MentorUtils.analyzeSentiment_score_eq text
  have hb := SpecModel.sentimentSpecScore_bounds text
  exact ⟨hs ▸ hb.1, hs ▸ hb.2, hs, MentorUtils.analyzeSentiment_label_eq text⟩
